import Mathlib

/-!
Verification development for the WARDROBIFY wardrobe-management app.

The development shallowly embeds the app's pure logic:
* the AI adapter operations (`analyzeClothingItem`, `generateOutfit`,
  `generateOutfitFromImage`, `generateWeeklyPlan`, `checkSimilarity`),
  with the outcome of the external model call made explicit as a parameter
  of type `CallOutcome`;
* the root coordinator's collection mutators (`addWardrobeItem`,
  `deleteWardrobeItem`, `addToWishlist`, `deleteWishlistItem`,
  `confirmDeleteEvent`);
* the Wardrobe view's upload pipeline and filters;
* the Stylist view's outfit rendering and weekly-plan rendering;
* the WeatherWidget's icon selection;
* the Wishlist view's form submission.

JavaScript-specific semantics (truthiness of strings, `||` defaulting,
stable `Array.prototype.sort`, object key insertion order as preserved by
`JSON.parse` and `Object.entries`) are modelled explicitly.
-/

namespace Wardrobify

/-- JavaScript `v || d` where `v` is a possibly-absent string: `undefined`
and the empty string are falsy, so both fall back to the default `d`. -/
def jsOrStr : Option String → String → String
  | none, d => d
  | some s, d => if s = "" then d else s

/-- JavaScript truthiness test for a `string | null` value: `null` and the
empty string are falsy. -/
def jsFalsyStrOpt : Option String → Bool
  | none => true
  | some s => s == ""

/-- JavaScript `try { body } catch (e) { handler }` where the handler always
produces a normal value: the whole statement never lets an exception escape. -/
def jsCatch {ε α : Type} (body : Except ε α) (handler : ε → α) : α :=
  match body with
  | .ok v => v
  | .error e => handler e

/-- Outcome of one external generative-model call as observed by the adapter
code: the call may throw (network error), return a response with no text,
return text that is not valid JSON (`JSON.parse` throws), or return text
that parses into fields of shape `α` (individual fields may be absent). -/
inductive CallOutcome (α : Type) where
  | netError
  | noText
  | malformed
  | parsed (fields : α)

/-- `ClothingItem` record from types.ts. The category is a string at
runtime (the TypeScript enum is erased), which matters for the
`categoryOrder` lookup's `|| 99` default. -/
structure ClothingItem where
  id : String
  imageUrl : String
  category : String
  color : String
  season : String
  description : String
  deriving DecidableEq

/-- `WishlistItem` record from types.ts. -/
structure WishlistItem where
  id : String
  name : String
  price : ℚ
  imageUrl : String
  link : Option String
  deriving DecidableEq

/-- `WeatherData` record from types.ts. -/
structure WeatherData where
  temperature : ℚ
  weatherCode : Int
  isDay : Bool

/-- `ScheduleEvent` record from types.ts. -/
structure ScheduleEvent where
  id : String
  title : String
  time : String
  icon : String
  deriving DecidableEq

/-- The JSON fields expected back from the classification call
(`Partial ClothingItem`): every field may be absent. -/
structure AnalyzeFields where
  category : Option String
  color : Option String
  season : Option String
  description : Option String
  deriving DecidableEq

/-- The hard-coded object returned by `analyzeClothingItem`'s catch block. -/
def analyzeFailureMeta : AnalyzeFields :=
  { category := some "Other"
    color := some "Unknown"
    season := some "All"
    description := some "Could not analyze image." }

/-- The try-block of `analyzeClothingItem`: a thrown network error or a
`JSON.parse` failure propagates as an exception; an empty `response.text`
hits the explicit `throw new Error("No data returned")`; otherwise the
parsed fields are returned as-is (missing fields stay absent). -/
def analyzeBody : CallOutcome AnalyzeFields → Except Unit AnalyzeFields
  | .netError => .error ()
  | .noText => .error ()
  | .malformed => .error ()
  | .parsed f => .ok f

/-- geminiService `analyzeClothingItem`: the try-block wrapped in the catch
that substitutes the hard-coded default metadata. -/
def analyzeClothingItem (o : CallOutcome AnalyzeFields) : AnalyzeFields :=
  jsCatch (analyzeBody o) (fun _ => analyzeFailureMeta)

/-- The JSON fields expected back from the outfit-generation calls. -/
structure OutfitFields where
  itemIds : Option (List String)
  explanation : Option String
  vibe : Option String
  deriving DecidableEq

/-- An outfit object as actually constructed at runtime from a parsed
response: `itemIds` and `explanation` are copied from the parsed JSON and
may be absent despite the declared TypeScript type. -/
structure OutfitJS where
  id : String
  itemIds : Option (List String)
  vibe : String
  explanation : Option String
  deriving DecidableEq

/-- The try-block shared in shape by `generateOutfit` and
`generateOutfitFromImage`: on a parsed response an outfit is built with
`id := Date.now().toString()` and `vibe := result.vibe || vibeDefault`;
an empty `response.text` returns null without throwing. -/
def generateOutfitBody (vibeDefault : String) (now : Nat) :
    CallOutcome OutfitFields → Except Unit (Option OutfitJS)
  | .netError => .error ()
  | .malformed => .error ()
  | .noText => .ok none
  | .parsed r =>
      .ok (some { id := toString now
                  itemIds := r.itemIds
                  vibe := jsOrStr r.vibe vibeDefault
                  explanation := r.explanation })

/-- geminiService `generateOutfit`: empty wardrobe returns null before the
model call; otherwise the try-block runs under a catch returning null. -/
def generateOutfit (wardrobe : List ClothingItem) (_weather vibe : String)
    (now : Nat) (o : CallOutcome OutfitFields) : Option OutfitJS :=
  if wardrobe.length = 0 then none
  else jsCatch (generateOutfitBody vibe now o) (fun _ => none)

/-- geminiService `generateOutfitFromImage`: same structure as
`generateOutfit` with vibe fallback "Inspo Match". -/
def generateOutfitFromImage (wardrobe : List ClothingItem)
    (_inspoImageBase64 : String) (now : Nat)
    (o : CallOutcome OutfitFields) : Option OutfitJS :=
  if wardrobe.length = 0 then none
  else jsCatch (generateOutfitBody "Inspo Match" now o) (fun _ => none)

/-- One day's outfit inside a parsed weekly-plan response. -/
structure WPOutfit where
  itemIds : List String
  explanation : String
  deriving DecidableEq

/-- A parsed weekly-plan object. JavaScript objects preserve string-key
insertion order, and `JSON.parse` inserts keys in their textual order, so
the object is modelled as an association list in that order. -/
abbrev WeeklyPlanJS := List (String × WPOutfit)

/-- The try-block of `generateWeeklyPlan`: the parsed JSON object is
returned directly; empty text returns null without throwing. -/
def generateWeeklyPlanBody :
    CallOutcome WeeklyPlanJS → Except Unit (Option WeeklyPlanJS)
  | .netError => .error ()
  | .malformed => .error ()
  | .noText => .ok none
  | .parsed p => .ok (some p)

/-- geminiService `generateWeeklyPlan`: empty wardrobe returns null before
the model call; otherwise the try-block runs under a catch returning null. -/
def generateWeeklyPlan (wardrobe : List ClothingItem) (_weather _theme : String)
    (o : CallOutcome WeeklyPlanJS) : Option WeeklyPlanJS :=
  if wardrobe.length = 0 then none
  else jsCatch (generateWeeklyPlanBody o) (fun _ => none)

/-- The JSON fields expected back from the similarity check. -/
structure SimFields where
  isSimilar : Option Bool
  explanation : Option String
  deriving DecidableEq

/-- The hard-coded object `checkSimilarity` returns when the wardrobe is
empty, before any model call. -/
def simEmptyWardrobe : SimFields :=
  { isSimilar := some false, explanation := some "Your wardrobe is empty!" }

/-- The hard-coded object `checkSimilarity` returns when the response has
no text. -/
def simNoTextDefault : SimFields :=
  { isSimilar := some false, explanation := some "Go for it!" }

/-- The hard-coded object `checkSimilarity`'s catch block returns. -/
def simCatchDefault : SimFields :=
  { isSimilar := some false
    explanation := some "Couldn\x27t check for duplicates, but trust your gut!" }

/-- The try-block of `checkSimilarity`: the parsed JSON is returned as-is;
empty text returns the "Go for it!" object without throwing. -/
def checkSimilarityBody : CallOutcome SimFields → Except Unit SimFields
  | .netError => .error ()
  | .malformed => .error ()
  | .noText => .ok simNoTextDefault
  | .parsed f => .ok f

/-- geminiService `checkSimilarity`: empty wardrobe short-circuits to
`simEmptyWardrobe`; otherwise the try-block runs under a catch returning
`simCatchDefault`. -/
def checkSimilarity (_wishlistImageBase64 : String)
    (wardrobe : List ClothingItem) (o : CallOutcome SimFields) : SimFields :=
  if wardrobe.length = 0 then simEmptyWardrobe
  else jsCatch (checkSimilarityBody o) (fun _ => simCatchDefault)

/-- App.tsx `addWardrobeItem`: `setWardrobe(prev => [item, ...prev])`. -/
def addWardrobeItem (item : ClothingItem) (prev : List ClothingItem) :
    List ClothingItem :=
  item :: prev

/-- App.tsx `deleteWardrobeItem`:
`setWardrobe(prev => prev.filter(item => item.id !== id))`. -/
def deleteWardrobeItem (id : String) (prev : List ClothingItem) :
    List ClothingItem :=
  prev.filter (fun item => item.id != id)

/-- App.tsx `addToWishlist`: `setWishlist(prev => [item, ...prev])`. -/
def addToWishlist (item : WishlistItem) (prev : List WishlistItem) :
    List WishlistItem :=
  item :: prev

/-- App.tsx `deleteWishlistItem`:
`setWishlist(prev => prev.filter(item => item.id !== id))`. -/
def deleteWishlistItem (id : String) (prev : List WishlistItem) :
    List WishlistItem :=
  prev.filter (fun item => item.id != id)

/-- App.tsx `confirmDeleteEvent`: only acts when an event id is pending
deletion, then `setEvents(prev => prev.filter(e => e.id !== eventToDelete))`. -/
def confirmDeleteEvent (eventToDelete : Option String)
    (events : List ScheduleEvent) : List ScheduleEvent :=
  match eventToDelete with
  | none => events
  | some id => events.filter (fun e => e.id != id)

/-- Wardrobe.tsx: the new item synthesized in `handleFileUpload` from the
classification metadata, with JavaScript `||` defaults on each field. -/
def mkUploadedItem (now : Nat) (base64Image : String) (meta : AnalyzeFields) :
    ClothingItem :=
  { id := toString now
    imageUrl := base64Image
    category := jsOrStr meta.category "Other"
    color := jsOrStr meta.color "Unknown"
    season := jsOrStr meta.season "All"
    description := jsOrStr meta.description "Added from closet" }

/-- Wardrobe.tsx `handleFileUpload`: classify the photo, synthesize the new
item, and prepend it via `addItem` (the coordinator's `addWardrobeItem`). -/
def handleFileUpload (now : Nat) (base64Image : String)
    (o : CallOutcome AnalyzeFields) (wardrobe : List ClothingItem) :
    List ClothingItem :=
  addWardrobeItem (mkUploadedItem now base64Image (analyzeClothingItem o)) wardrobe

/-- Contiguous-substring test on character lists: the needle occurs as a
prefix of some suffix of the haystack. -/
def listIncludes (needle : List Char) : List Char → Bool
  | [] => needle.isPrefixOf []
  | c :: t => needle.isPrefixOf (c :: t) || listIncludes needle t

/-- JavaScript `haystack.includes(needle)` on strings. -/
def strIncludes (hay needle : String) : Bool :=
  listIncludes needle.toList hay.toList

/-- Wardrobe.tsx category facet:
`activeCategory === 'All' || item.category === activeCategory`. -/
def matchCat (activeCategory : String) (item : ClothingItem) : Bool :=
  activeCategory == "All" || item.category == activeCategory

/-- Wardrobe.tsx color facet:
`!activeColor || item.color.toLowerCase().includes(activeColor.toLowerCase())`;
a null or empty `activeColor` is falsy and matches everything. -/
def matchColor (activeColor : Option String) (item : ClothingItem) : Bool :=
  match activeColor with
  | none => true
  | some c => if c = "" then true else strIncludes item.color.toLower c.toLower

/-- Wardrobe.tsx `filteredItems`: one pass keeping items matching both the
category facet and the color facet. -/
def filteredItems (activeCategory : String) (activeColor : Option String)
    (items : List ClothingItem) : List ClothingItem :=
  items.filter (fun item => matchCat activeCategory item && matchColor activeColor item)

/-- Stylist.tsx static priority table `categoryOrder`, including the
`|| 99` fallback for a category string not in the table. -/
def categoryOrder (c : String) : Nat :=
  if c = "Top" then 1
  else if c = "One-Piece" then 2
  else if c = "Outerwear" then 3
  else if c = "Bottom" then 4
  else if c = "Shoes" then 5
  else if c = "Accessory" then 6
  else if c = "Other" then 7
  else 99

/-- Stylist.tsx `renderOutfitVisual`, resolution step:
`itemIds.map(id => wardrobe.find(w => w.id === id)).filter(Boolean)`:
each id is looked up in the wardrobe and unresolved ids are dropped. -/
def resolveItems (itemIds : List String) (wardrobe : List ClothingItem) :
    List ClothingItem :=
  itemIds.filterMap (fun id => wardrobe.find? (fun w => w.id == id))

/-- Stylist.tsx `renderOutfitVisual`, ordering step: the resolved items are
sorted by `categoryOrder[a.category] - categoryOrder[b.category]`;
`Array.prototype.sort` is stable, modelled by the stable `List.mergeSort`. -/
def renderOutfitItems (itemIds : List String) (wardrobe : List ClothingItem) :
    List ClothingItem :=
  (resolveItems itemIds wardrobe).mergeSort
    (fun a b => categoryOrder a.category ≤ categoryOrder b.category)

/-- Stylist.tsx weekly-plan rendering: `Object.entries(weeklyPlan).map`
renders one section per key, in the object's key insertion order. -/
def renderWeeklySections (wardrobe : List ClothingItem) (plan : WeeklyPlanJS) :
    List (String × List ClothingItem) :=
  plan.map (fun e => (e.1, renderOutfitItems e.2.itemIds wardrobe))

/-- WeatherWidget.tsx icon selection:
`weatherCode <= 3 ? (isDay ? sun : moon) : weatherCode <= 60 ? cloud : rain`. -/
def weatherIcon (w : WeatherData) : String :=
  if w.weatherCode ≤ 3 then (if w.isDay then "☀️" else "🌙")
  else if w.weatherCode ≤ 60 then "☁️" else "🌧️"

/-- Base-10 numeric value of a digit list. -/
def digitsVal (ds : List Char) : Nat :=
  ds.foldl (fun acc c => acc * 10 + (c.toNat - 48)) 0

/-- Modelled builtin: JavaScript `parseFloat`, restricted to finite decimal
literals — optional leading whitespace, optional sign, integer digits,
optional fractional digits, optional exponent part. Returns `none` when no
numeric prefix exists (JavaScript NaN); trailing non-numeric text is
ignored, as `parseFloat` parses the longest numeric prefix. -/
def jsParseFloat (s : String) : Option ℚ :=
  let cs := s.toList.dropWhile (fun c => c == ' ' || c == '\t' || c == '\n')
  let signRest : Bool × List Char :=
    match cs with
    | '-' :: r => (true, r)
    | '+' :: r => (false, r)
    | _ => (false, cs)
  let neg := signRest.1
  let cs1 := signRest.2
  let ip := cs1.takeWhile Char.isDigit
  let rest := cs1.dropWhile Char.isDigit
  let fracRest : List Char × List Char :=
    match rest with
    | '.' :: r => (r.takeWhile Char.isDigit, r.dropWhile Char.isDigit)
    | _ => ([], rest)
  let fp := fracRest.1
  let rest2 := fracRest.2
  if ip.isEmpty && fp.isEmpty then none
  else
    let mantissa : ℚ := (digitsVal ip : ℚ) + (digitsVal fp : ℚ) / ((10 : ℚ) ^ fp.length)
    let exp : Int :=
      match rest2 with
      | 'e' :: r | 'E' :: r =>
        let esignRest : Int × List Char :=
          match r with
          | '-' :: r2 => (-1, r2)
          | '+' :: r2 => (1, r2)
          | _ => (1, r)
        let ed := esignRest.2.takeWhile Char.isDigit
        if ed.isEmpty then 0 else esignRest.1 * (digitsVal ed : Int)
      | _ => 0
    let v := mantissa * (10 : ℚ) ^ exp
    some (if neg then -v else v)

/-- JavaScript `parseFloat(price) || 0`: NaN (here `none`) is falsy and
falls back to 0; a parsed 0 is also falsy but `0 || 0` is still 0, so every
parsed value is returned unchanged. -/
def jsNumOrZero : Option ℚ → ℚ
  | none => 0
  | some q => q

/-- The Wishlist form's input state: `name`, `price`, `brand` text fields
and the uploaded preview image (`string | null`). -/
structure WishFormState where
  name : String
  price : String
  brand : String
  previewImage : Option String
  deriving DecidableEq

/-- Wishlist `handleAdd`: a falsy (empty) name or price or a missing image
blocks submission and leaves the wishlist unchanged; otherwise a new item
is built — name suffixed with the parenthesized brand when present, price
from `parseFloat(price) || 0` — and prepended via `addToWishlist`. -/
def handleAdd (now : Nat) (st : WishFormState) (wishlist : List WishlistItem) :
    List WishlistItem :=
  if st.name == "" || st.price == "" || jsFalsyStrOpt st.previewImage then wishlist
  else
    addToWishlist
      { id := toString now
        name := st.name ++ " " ++ (if st.brand != "" then "(" ++ st.brand ++ ")" else "")
        price := jsNumOrZero (jsParseFloat st.price)
        imageUrl := st.previewImage.getD ""
        link := none } wishlist

/-- A placeholder day outfit for building concrete weekly-plan responses. -/
def wpDummy : WPOutfit :=
  { itemIds := [], explanation := "" }

/-- A weekly-plan response whose keys are exactly the five weekday names
but listed with Tuesday first — the association list `JSON.parse` would
produce for a response text listing the days in that order. -/
def scrambledPlan : WeeklyPlanJS :=
  [("Tuesday", wpDummy), ("Monday", wpDummy), ("Wednesday", wpDummy),
   ("Thursday", wpDummy), ("Friday", wpDummy)]

/-!
## Theorems

One theorem per claim, in claim order; witnesses follow the theorems that
have hypotheses.
-/

/-- C1 (amended): on a network error, an empty response, or malformed JSON,
every adapter operation returns its hard-coded default — the default
metadata object for classification; null for single-outfit,
inspiration-outfit and weekly-plan generation; for the similarity check one
fixed object for the thrown/malformed paths and another for the
empty-response path. Each operation is a total function of the call
outcome: the local catch turns every failure into the default, so no
exception reaches the caller (fourth conjunct of the first group:
every outcome yields either the default or the parsed fields). A
well-formed JSON response with missing fields, however, is not replaced by
the default: the parsed partial object is returned unchanged (see the
counterexample theorem). -/
theorem adapter_failure_defaults :
    (analyzeClothingItem .netError = analyzeFailureMeta ∧
     analyzeClothingItem .noText = analyzeFailureMeta ∧
     analyzeClothingItem .malformed = analyzeFailureMeta ∧
     ∀ o, analyzeClothingItem o = analyzeFailureMeta ∨
       ∃ f, o = CallOutcome.parsed f ∧ analyzeClothingItem o = f) ∧
    (∀ (w : List ClothingItem) (weather vibe : String) (now : Nat),
      generateOutfit w weather vibe now .netError = none ∧
      generateOutfit w weather vibe now .noText = none ∧
      generateOutfit w weather vibe now .malformed = none) ∧
    (∀ (w : List ClothingItem) (img : String) (now : Nat),
      generateOutfitFromImage w img now .netError = none ∧
      generateOutfitFromImage w img now .noText = none ∧
      generateOutfitFromImage w img now .malformed = none) ∧
    (∀ (w : List ClothingItem) (weather theme : String),
      generateWeeklyPlan w weather theme .netError = none ∧
      generateWeeklyPlan w weather theme .noText = none ∧
      generateWeeklyPlan w weather theme .malformed = none) ∧
    (∀ (img : String) (x : ClothingItem) (xs : List ClothingItem),
      checkSimilarity img (x :: xs) .netError = simCatchDefault ∧
      checkSimilarity img (x :: xs) .noText = simNoTextDefault ∧
      checkSimilarity img (x :: xs) .malformed = simCatchDefault) := by
  refine ⟨⟨rfl, rfl, rfl, ?_⟩, ?_, ?_, ?_, ?_⟩
  · intro o
    cases o with
    | parsed f => exact Or.inr ⟨f, rfl, rfl⟩
    | netError => exact Or.inl rfl
    | noText => exact Or.inl rfl
    | malformed => exact Or.inl rfl
  · intro w weather vibe now
    refine ⟨?_, ?_, ?_⟩ <;> cases w <;> rfl
  · intro w img now
    refine ⟨?_, ?_, ?_⟩ <;> cases w <;> rfl
  · intro w weather theme
    refine ⟨?_, ?_, ?_⟩ <;> cases w <;> rfl
  · intro img x xs
    exact ⟨rfl, rfl, rfl⟩

/-- C1 counterexample: a well-formed JSON response missing the category
field is not converted to the hard-coded default — the classification
operation returns the parsed partial object (the color field survives),
and the returned value varies with the response, so it is not hard-coded. -/
theorem adapter_missing_field_cex :
    analyzeClothingItem
        (.parsed { category := none, color := some "Red", season := none, description := none })
      ≠ analyzeFailureMeta ∧
    analyzeClothingItem
        (.parsed { category := none, color := some "Red", season := none, description := none })
      = { category := none, color := some "Red", season := none, description := none } ∧
    analyzeClothingItem
        (.parsed { category := none, color := some "Red", season := none, description := none })
      ≠ analyzeClothingItem
        (.parsed { category := none, color := some "Blue", season := none, description := none }) := by
  exact ⟨by decide, rfl, by decide⟩

/-- C2: if the external classification call fails — the call throws or no
text is returned — the wardrobe item produced by the photo-upload pipeline
has category "Other", color "Unknown" and season "All". -/
theorem upload_failure_item_defaults :
    ∀ (now : Nat) (b64 : String) (w : List ClothingItem),
      handleFileUpload now b64 .netError w = mkUploadedItem now b64 analyzeFailureMeta :: w ∧
      handleFileUpload now b64 .noText w = mkUploadedItem now b64 analyzeFailureMeta :: w ∧
      (mkUploadedItem now b64 analyzeFailureMeta).category = "Other" ∧
      (mkUploadedItem now b64 analyzeFailureMeta).color = "Unknown" ∧
      (mkUploadedItem now b64 analyzeFailureMeta).season = "All" := by
  intro now b64 w
  refine ⟨rfl, rfl, ?_, ?_, ?_⟩ <;> rfl

/-- C3: each delete operation — wardrobe item, wishlist item, schedule
event — keeps exactly the items whose id differs from the given one,
unchanged and in their original relative order (the result is a sublist of
the original), and an item survives iff it was present and its id differs. -/
theorem delete_removes_exactly_matching :
    ∀ (targetId : String) (w : List ClothingItem) (wl : List WishlistItem)
      (ev : List ScheduleEvent),
      ((deleteWardrobeItem targetId w).Sublist w ∧
        ∀ x, x ∈ deleteWardrobeItem targetId w ↔ x ∈ w ∧ x.id ≠ targetId) ∧
      ((deleteWishlistItem targetId wl).Sublist wl ∧
        ∀ x, x ∈ deleteWishlistItem targetId wl ↔ x ∈ wl ∧ x.id ≠ targetId) ∧
      ((confirmDeleteEvent (some targetId) ev).Sublist ev ∧
        ∀ x, x ∈ confirmDeleteEvent (some targetId) ev ↔ x ∈ ev ∧ x.id ≠ targetId) := by
  intro targetId w wl ev
  refine ⟨⟨List.filter_sublist _, ?_⟩, ⟨List.filter_sublist _, ?_⟩,
    ⟨List.filter_sublist _, ?_⟩⟩ <;>
    intro x <;>
    simp [deleteWardrobeItem, deleteWishlistItem, confirmDeleteEvent,
      List.mem_filter, bne_iff_ne]

/-- C4: after a successful classification response the synthesized item is
prepended to the wardrobe: it is the head of the new collection and all
previously present items follow it unchanged and in their previous order. -/
theorem upload_prepends_item :
    ∀ (now : Nat) (b64 : String) (f : AnalyzeFields) (w : List ClothingItem),
      handleFileUpload now b64 (.parsed f) w = mkUploadedItem now b64 f :: w ∧
      (handleFileUpload now b64 (.parsed f) w).head? = some (mkUploadedItem now b64 f) ∧
      (handleFileUpload now b64 (.parsed f) w).tail = w := by
  intro now b64 f w
  exact ⟨rfl, rfl, rfl⟩

/-- C5: the wardrobe category and color filters are each idempotent (and
so is their combination), and the combined filter keeps exactly the items
kept by the category filter alone (no color facet) and by the color filter
alone (category "All"). -/
theorem filters_idempotent_and_intersect :
    ∀ (cat : String) (col : Option String) (items : List ClothingItem),
      filteredItems cat none (filteredItems cat none items) = filteredItems cat none items ∧
      filteredItems "All" col (filteredItems "All" col items) = filteredItems "All" col items ∧
      filteredItems cat col (filteredItems cat col items) = filteredItems cat col items ∧
      ∀ x, x ∈ filteredItems cat col items ↔
        x ∈ filteredItems cat none items ∧ x ∈ filteredItems "All" col items := by
  intro cat col items
  refine ⟨?_, ?_, ?_, ?_⟩
  · simp [filteredItems, List.filter_filter, Bool.and_self]
  · simp [filteredItems, List.filter_filter, Bool.and_self]
  · simp [filteredItems, List.filter_filter, Bool.and_self]
  · intro x
    simp only [filteredItems, List.mem_filter, Bool.and_eq_true, matchCat, matchColor,
      Bool.or_eq_true, beq_iff_eq, beq_self_eq_true]
    tauto

/-- Unresolvable ids contribute nothing to resolution: filtering them out
of the id list leaves the resolved item list unchanged. -/
theorem resolveItems_filter_resolvable :
    ∀ (ids : List String) (wardrobe : List ClothingItem),
      resolveItems (ids.filter (fun id => (wardrobe.find? (fun w => w.id == id)).isSome)) wardrobe
        = resolveItems ids wardrobe := by
  intro ids wardrobe
  induction ids with
  | nil => rfl
  | cons id rest ih =>
    cases h : wardrobe.find? (fun w => w.id == id) with
    | none => simpa [resolveItems, List.filter_cons, List.filterMap_cons, h] using ih
    | some v => simpa [resolveItems, List.filter_cons, List.filterMap_cons, h] using ih

/-- C6: the rendered outfit items are a permutation of the wardrobe items
resolved from the outfit's item ids; they are ordered head-to-toe by the
static priority table (whose priorities are strictly increasing along Top,
One-Piece, Outerwear, Bottom, Shoes, Accessory, Other); and item ids that
resolve to no wardrobe item are silently dropped — filtering them from the
id list changes nothing. -/
theorem render_resolves_orders_drops :
    ∀ (itemIds : List String) (wardrobe : List ClothingItem),
      (renderOutfitItems itemIds wardrobe).Perm (resolveItems itemIds wardrobe) ∧
      (renderOutfitItems itemIds wardrobe).Pairwise
        (fun a b => categoryOrder a.category ≤ categoryOrder b.category) ∧
      renderOutfitItems
          (itemIds.filter (fun id => (wardrobe.find? (fun w => w.id == id)).isSome)) wardrobe
        = renderOutfitItems itemIds wardrobe ∧
      (categoryOrder "Top" < categoryOrder "One-Piece" ∧
       categoryOrder "One-Piece" < categoryOrder "Outerwear" ∧
       categoryOrder "Outerwear" < categoryOrder "Bottom" ∧
       categoryOrder "Bottom" < categoryOrder "Shoes" ∧
       categoryOrder "Shoes" < categoryOrder "Accessory" ∧
       categoryOrder "Accessory" < categoryOrder "Other") := by
  intro itemIds wardrobe
  refine ⟨List.mergeSort_perm _ _, ?_, ?_, by decide⟩
  · have hs := @List.sorted_mergeSort ClothingItem
      (fun a b : ClothingItem =>
        decide (categoryOrder a.category ≤ categoryOrder b.category))
      (fun a b c hab hbc => by
        simp only [decide_eq_true_eq] at *
        omega)
      (fun a b => by
        simp only [Bool.or_eq_true, decide_eq_true_eq]
        omega)
      (resolveItems itemIds wardrobe)
    exact hs.imp (fun h => of_decide_eq_true h)
  · unfold renderOutfitItems
    rw [resolveItems_filter_resolvable]

/-- C7 (amended): the weekly-plan view renders one outfit section per
response key, in the response's own key order — the rendered day labels
equal the key list; in particular a response whose keys appear in the
order Monday, Tuesday, Wednesday, Thursday, Friday renders five sections
in exactly that order. -/
theorem weekly_render_follows_key_order :
    ∀ (wardrobe : List ClothingItem) (plan : WeeklyPlanJS),
      (renderWeeklySections wardrobe plan).map Prod.fst = plan.map Prod.fst ∧
      (renderWeeklySections wardrobe plan).length = plan.length ∧
      ∀ o1 o2 o3 o4 o5 : WPOutfit,
        (renderWeeklySections wardrobe
            [("Monday", o1), ("Tuesday", o2), ("Wednesday", o3),
             ("Thursday", o4), ("Friday", o5)]).map Prod.fst
          = ["Monday", "Tuesday", "Wednesday", "Thursday", "Friday"] := by
  intro wardrobe plan
  refine ⟨?_, ?_, ?_⟩ <;> simp [renderWeeklySections]

/-- C7 counterexample: a weekly-plan response whose keys are exactly the
five weekday names, listed with Tuesday first, renders its sections in the
response's order — not in the fixed Monday-first order the claim states. -/
theorem weekly_render_order_cex :
    (scrambledPlan.map Prod.fst).Perm
      ["Monday", "Tuesday", "Wednesday", "Thursday", "Friday"] ∧
    (renderWeeklySections [] scrambledPlan).map Prod.fst
      ≠ ["Monday", "Tuesday", "Wednesday", "Thursday", "Friday"] := by
  constructor
  · exact List.Perm.swap "Monday" "Tuesday" _
  · simp [renderWeeklySections, scrambledPlan]

/-- C8: when the weather code is at most 3 the rendered icon follows the
day/night flag (sun by day, moon by night); when the code exceeds 60 a
rain icon is rendered regardless of the flag. -/
theorem weather_icon_code_ranges :
    ∀ (w : WeatherData),
      (w.weatherCode ≤ 3 → weatherIcon w = if w.isDay then "☀️" else "🌙") ∧
      (60 < w.weatherCode → weatherIcon w = "🌧️") := by
  intro w
  constructor
  · intro h
    simp [weatherIcon, h]
  · intro h
    have h1 : ¬ w.weatherCode ≤ 3 := by omega
    have h2 : ¬ w.weatherCode ≤ 60 := by omega
    simp [weatherIcon, h1, h2]

/-- Witness for the weather-icon ranges at concrete snapshots: code 2 by
day and by night, and code 61. -/
theorem weather_icon_code_ranges_witness :
    weatherIcon { temperature := 20, weatherCode := 2, isDay := true } = "☀️" ∧
    weatherIcon { temperature := 20, weatherCode := 2, isDay := false } = "🌙" ∧
    weatherIcon { temperature := 5, weatherCode := 61, isDay := true } = "🌧️" := by
  refine ⟨?_, ?_, ?_⟩
  · simpa using (weather_icon_code_ranges _).1 (by decide)
  · simpa using (weather_icon_code_ranges _).1 (by decide)
  · exact (weather_icon_code_ranges _).2 (by decide)

/-- C9: wishlist submission adds an item only when the name, price and
image fields are all non-empty — any missing required field leaves the
wishlist unchanged and the handler returns normally; on success the new
item is prepended, with price `parseFloat(price) || 0`: the lenient parse
of the price text, defaulting to zero when the text is non-numeric. -/
theorem wishlist_submission_rules :
    ∀ (now : Nat) (st : WishFormState) (wl : List WishlistItem),
      ((st.name = "" ∨ st.price = "" ∨ st.previewImage = none ∨ st.previewImage = some "") →
        handleAdd now st wl = wl) ∧
      (st.name ≠ "" → st.price ≠ "" →
        ∀ img, st.previewImage = some img → img ≠ "" →
          handleAdd now st wl =
            { id := toString now
              name := st.name ++ " " ++ (if st.brand != "" then "(" ++ st.brand ++ ")" else "")
              price := jsNumOrZero (jsParseFloat st.price)
              imageUrl := img
              link := none } :: wl) ∧
      (jsParseFloat st.price = none → jsNumOrZero (jsParseFloat st.price) = 0) ∧
      (∀ q, jsParseFloat st.price = some q → jsNumOrZero (jsParseFloat st.price) = q) := by
  intro now st wl
  refine ⟨?_, ?_, ?_, ?_⟩
  · intro h
    have hb : (st.name == "" || st.price == "" || jsFalsyStrOpt st.previewImage) = true := by
      rcases h with h | h | h | h <;> simp [h, jsFalsyStrOpt]
    simp [handleAdd, hb]
  · intro hn hp img himg hne
    have h1 : (st.name == "") = false := by simp [hn]
    have h2 : (st.price == "") = false := by simp [hp]
    have h3 : jsFalsyStrOpt (some img) = false := by simp [jsFalsyStrOpt, hne]
    simp [handleAdd, h1, h2, h3, addToWishlist, himg]
  · intro h
    simp [jsNumOrZero, h]
  · intro q h
    simp [jsNumOrZero, h]

/-- Witness for the wishlist submission rules: an empty name blocks
submission; a non-numeric price stores zero; a decimal price stores its
parsed value. -/
theorem wishlist_submission_rules_witness :
    handleAdd 5 { name := "", price := "12", brand := "", previewImage := some "img" } [] = [] ∧
    handleAdd 5 { name := "Dress", price := "banana", brand := "", previewImage := some "img" } []
      = [{ id := "5", name := "Dress ", price := 0, imageUrl := "img", link := none }] ∧
    handleAdd 5 { name := "Dress", price := "12.5", brand := "Zara", previewImage := some "img" } []
      = [{ id := "5", name := "Dress (Zara)", price := 25/2, imageUrl := "img", link := none }] := by
  have h25 : jsParseFloat "12.5" = some (25/2) := by
    simp [jsParseFloat, digitsVal]
    norm_num
  have hban : jsParseFloat "banana" = none := rfl
  refine ⟨?_, ?_, ?_⟩
  · exact (wishlist_submission_rules 5 _ []).1 (Or.inl rfl)
  · rw [(wishlist_submission_rules 5 _ []).2.1 (by decide) (by decide) "img" rfl (by decide),
      (wishlist_submission_rules 5 _ []).2.2.1 hban]
    rfl
  · rw [(wishlist_submission_rules 5 _ []).2.1 (by decide) (by decide) "img" rfl (by decide),
      (wishlist_submission_rules 5 _ []).2.2.2 (25/2) h25]
    rfl

/-- C10: with an empty wardrobe, generateOutfit, generateOutfitFromImage
and generateWeeklyPlan return null and checkSimilarity returns the
isSimilar = false / "Your wardrobe is empty!" object; the result is
identical for every outcome of the external call, which the code never
reaches (it returns before invoking the model). -/
theorem empty_wardrobe_short_circuits :
    ∀ (weather vibe img theme : String) (now : Nat)
      (o1 o2 : CallOutcome OutfitFields) (o3 : CallOutcome WeeklyPlanJS)
      (o4 : CallOutcome SimFields),
      generateOutfit [] weather vibe now o1 = none ∧
      generateOutfitFromImage [] img now o2 = none ∧
      generateWeeklyPlan [] weather theme o3 = none ∧
      checkSimilarity img [] o4 = simEmptyWardrobe ∧
      simEmptyWardrobe.isSimilar = some false ∧
      simEmptyWardrobe.explanation = some "Your wardrobe is empty!" := by
  intro weather vibe img theme now o1 o2 o3 o4
  exact ⟨rfl, rfl, rfl, rfl, rfl, rfl⟩

end Wardrobify
